import Mathlib

/-!
Shallow embedding of the ValueX-DCF valuation and risk-analysis engine
(`src/models/dcf_model.py`, `src/models/sensitivity_analysis.py`,
`src/models/risk_analysis.py`, `src/models/valuation_methods.py`).

Numbers are modelled as rationals (`ℚ`): every arithmetic operation the
engine performs on its Python floats (addition, multiplication, division,
integer powers, comparisons) is exact on the inputs used here, so the
rational model reproduces the code's control flow faithfully.  Python
exceptions are modelled with `Except PyError`; a Python function that
catches an exception and returns an error dictionary is modelled as
returning `Except.error`.
-/

/-- Kinds of `ValueError` raised by the engine, one constructor per
`raise ValueError(...)` site, in source order. -/
inductive ValErr where
  | baseFCFNotPositive
  | growthOutOfRange
  | waccOutOfRange
  | terminalGrowthOutOfRange
  | waccNotAboveTerminalGrowth
  | sharesNotPositive
  | emptyFCFList
  | waccMustExceedTerminalGrowth
  | requiredReturnNotAboveDividendGrowth
deriving DecidableEq

/-- Python exceptions relevant to the engine: `ValueError` (with its kind)
and `ZeroDivisionError`. -/
inductive PyError where
  | valueError : ValErr → PyError
  | zeroDivisionError : PyError
deriving DecidableEq

/-- Embedding of `validate_inputs` (src/models/dcf_model.py lines 9-29):
a chain of range checks, each raising `ValueError` at the first violation,
in the source's order. -/
def validate_inputs (base_fcf growth_rate wacc terminal_growth shares_outstanding : ℚ) :
    Except PyError Unit :=
  if base_fcf ≤ 0 then .error (.valueError .baseFCFNotPositive)
  else if ¬(-(1/2) ≤ growth_rate ∧ growth_rate ≤ 1) then
    .error (.valueError .growthOutOfRange)
  else if ¬(1/100 ≤ wacc ∧ wacc ≤ 1/2) then .error (.valueError .waccOutOfRange)
  else if ¬(-(1/10) ≤ terminal_growth ∧ terminal_growth ≤ 15/100) then
    .error (.valueError .terminalGrowthOutOfRange)
  else if wacc ≤ terminal_growth then .error (.valueError .waccNotAboveTerminalGrowth)
  else if shares_outstanding ≤ 0 then .error (.valueError .sharesNotPositive)
  else .ok ()

/-- Embedding of `project_fcf` (src/models/dcf_model.py lines 31-56):
validates with placeholder wacc=0.1, terminal=0.03, shares=1, then returns
`[base*(1+g)^1, …, base*(1+g)^years]` (the loop runs over
`range(1, years+1)`). -/
def project_fcf (base_fcf growth_rate : ℚ) (years : ℕ) : Except PyError (List ℚ) :=
  match validate_inputs base_fcf growth_rate (1/10) (3/100) 1 with
  | .error e => .error e
  | .ok _ => .ok ((List.range years).map (fun i => base_fcf * (1 + growth_rate) ^ (i + 1)))

/-- Result dictionary returned by `calculate_dcf`, one field per key. -/
structure DCFResult where
  enterprise_value : ℚ
  intrinsic_value : ℚ
  discounted_fcf : List ℚ
  discounted_terminal : ℚ
  terminal_value : ℚ
  pv_explicit_fcf : ℚ
  terminal_fcf : ℚ
deriving DecidableEq

/-- Embedding of `calculate_dcf` (src/models/dcf_model.py lines 58-119).
The body raises `ValueError` on an empty list, delegates to
`validate_inputs` with `fcf_list[0]` as base-FCF proxy and placeholder
growth 0.1, then discounts each cash flow and the Gordon-growth terminal
value.  Python would raise `ZeroDivisionError` on `wacc = terminal_growth`
(rational division is total, so the zero test is explicit here); the
function's `except ZeroDivisionError` clause translates that into a
`ValueError`, which the final `match` reproduces. -/
def calculate_dcf (fcf_list : List ℚ) (wacc terminal_growth shares_outstanding : ℚ) :
    Except PyError DCFResult :=
  let body : Except PyError DCFResult :=
    if fcf_list.isEmpty then .error (.valueError .emptyFCFList)
    else
      match validate_inputs (fcf_list.headD 0) (1/10) wacc terminal_growth
          shares_outstanding with
      | .error e => .error e
      | .ok _ =>
        let discounted_fcf := fcf_list.enum.map (fun p => p.2 / (1 + wacc) ^ (p.1 + 1))
        let final_fcf := (fcf_list.getLast?).getD 0
        let terminal_fcf := final_fcf * (1 + terminal_growth)
        if wacc - terminal_growth = 0 then .error .zeroDivisionError
        else
          let terminal_value := terminal_fcf / (wacc - terminal_growth)
          let discounted_terminal := terminal_value / (1 + wacc) ^ fcf_list.length
          let pv_explicit_fcf := discounted_fcf.sum
          let enterprise_value := pv_explicit_fcf + discounted_terminal
          let intrinsic_value := enterprise_value / shares_outstanding
          .ok { enterprise_value := enterprise_value
                intrinsic_value := intrinsic_value
                discounted_fcf := discounted_fcf
                discounted_terminal := discounted_terminal
                terminal_value := terminal_value
                pv_explicit_fcf := pv_explicit_fcf
                terminal_fcf := terminal_fcf }
  match body with
  | .error .zeroDivisionError => .error (.valueError .waccMustExceedTerminalGrowth)
  | r => r

/-- Python's `round(x, d)` modelled on rationals (ties differ from float
banker's rounding; no verified statement depends on a tie). -/
def py_round (x : ℚ) (d : ℕ) : ℚ := ((round (x * 10 ^ d) : ℤ) : ℚ) / 10 ^ d

/-- Embedding of `generate_sensitivity_matrix`
(src/models/sensitivity_analysis.py lines 3-19): one projection reused for
every cell; each cell calls `calculate_dcf` and only a `ZeroDivisionError`
is caught and recorded as `none` — any `ValueError` escapes and aborts the
whole matrix, which `Except.error` models. -/
def generate_sensitivity_matrix (base_fcf shares growth_rate : ℚ)
    (wacc_range terminal_growth_range : List ℚ) :
    Except PyError (List (ℚ × List (Option ℚ))) :=
  match project_fcf base_fcf growth_rate 5 with
  | .error e => .error e
  | .ok projected_fcf =>
    wacc_range.mapM (fun wacc =>
      match terminal_growth_range.mapM (fun tg =>
        (match calculate_dcf projected_fcf wacc tg shares with
        | .ok result => .ok (some (py_round result.intrinsic_value 2))
        | .error .zeroDivisionError => .ok none
        | .error e => .error e : Except PyError (Option ℚ))) with
      | .error e => .error e
      | .ok row => .ok (py_round (wacc * 100) 1, row))

/-- Embedding of `ValuationSuite.dividend_discount_model`
(src/models/valuation_methods.py lines 94-117).  The method computes the
estimated dividend first (Python raises `ZeroDivisionError` when
`shares_outstanding` is zero), then raises `ValueError` when
`required_return ≤ dividend_growth`; every exception is caught by the
method's handler and returned as an error dictionary, modelled by
`Except.error`. -/
def dividend_discount_model (revenue shares_outstanding dividend_growth required_return : ℚ) :
    Except PyError ℚ :=
  if shares_outstanding = 0 then .error .zeroDivisionError
  else
    let estimated_dividend := revenue * (3/100) / shares_outstanding
    if required_return ≤ dividend_growth then
      .error (.valueError .requiredReturnNotAboveDividendGrowth)
    else
      .ok (estimated_dividend * (1 + dividend_growth) / (required_return - dividend_growth))

/-- Clamp-then-repair step shared verbatim by the Monte Carlo loop
(src/models/risk_analysis.py lines 47-53), `scenario_analysis`
(lines 127-132) and `stress_testing` (lines 293-298): clamp growth, wacc
and terminal to their legal ranges, then force `terminal = wacc - 0.01`
whenever `wacc ≤ terminal`. -/
def clamp_params (growth wacc terminal : ℚ) : ℚ × ℚ × ℚ :=
  let g := max (-(1/2)) (min 1 growth)
  let w := max (1/100) (min (1/2) wacc)
  let t := max (-(1/10)) (min (15/100) terminal)
  if w ≤ t then (g, w, w - 1/100) else (g, w, t)

/-- Projection-then-DCF part of one risk-analysis trial: project five
years of FCF with the given growth, run `calculate_dcf`, return the
intrinsic value. -/
def dcf_run (base_fcf shares growth wacc terminal : ℚ) : Except PyError ℚ :=
  match project_fcf base_fcf growth 5 with
  | .error e => .error e
  | .ok fcf_proj =>
    match calculate_dcf fcf_proj wacc terminal shares with
    | .error e => .error e
    | .ok r => .ok r.intrinsic_value

/-- One complete trial of the risk-analysis pipeline: clamp-and-repair the
parameters, then project and discount.  This is exactly the per-trial body
of the Monte Carlo loop, of each scenario in `scenario_analysis` and of
each stress scenario in `stress_testing` (the source repeats these lines
verbatim at each site). -/
def dcf_trial (base_fcf shares growth wacc terminal : ℚ) : Except PyError ℚ :=
  dcf_run base_fcf shares (clamp_params growth wacc terminal).1
    (clamp_params growth wacc terminal).2.1 (clamp_params growth wacc terminal).2.2

/-- Embedding of `RiskAnalyzer.scenario_analysis`
(src/models/risk_analysis.py lines 96-151) restricted to the three
per-scenario intrinsic-value computations (bear, base, bull in that
order); the source derives the three parameter sets by the fixed deltas
below and runs the identical clamp/project/DCF body on each, recording a
failing scenario as an error entry. -/
def scenario_analysis (fcf shares growth wacc terminal : ℚ) :
    Except PyError ℚ × Except PyError ℚ × Except PyError ℚ :=
  (dcf_trial fcf shares (growth - 5/100) (wacc + 2/100) (terminal - 1/100),
   dcf_trial fcf shares growth wacc terminal,
   dcf_trial fcf shares (growth + 5/100) (wacc - 1/100) (terminal + 1/100))

/-- Closed form of the intrinsic value produced by one risk-analysis trial
with already-valid parameters: five discounted cash flows plus the
discounted Gordon terminal value, divided by shares. -/
def scenarioValue (b g w t s : ℚ) : ℚ :=
  (b * (1+g) / (1+w) + b * (1+g)^2 / (1+w)^2 + b * (1+g)^3 / (1+w)^3 +
    b * (1+g)^4 / (1+w)^4 + b * (1+g)^5 / (1+w)^5 +
    b * (1+g)^5 * (1+t) / (w - t) / (1+w)^5) / s

/-- Sorting step of the numpy aggregations (`np.median`, `np.percentile`
sort their input). -/
def np_sort (l : List ℚ) : List ℚ := l.insertionSort (· ≤ ·)

/-- Model of `np.mean`. -/
def np_mean (l : List ℚ) : ℚ := l.sum / l.length

/-- Model of `np.median`: middle element of the sorted list, or the mean
of the two middle elements for even length. -/
def np_median (l : List ℚ) : ℚ :=
  let s := np_sort l
  if l.length % 2 = 1 then s.getD (l.length / 2) 0
  else (s.getD (l.length / 2 - 1) 0 + s.getD (l.length / 2) 0) / 2

/-- Model of `np.percentile` with numpy's default linear interpolation:
position `p/100 * (n-1)` into the sorted list, interpolating between the
two neighbouring order statistics. -/
def np_percentile (l : List ℚ) (p : ℚ) : ℚ :=
  let s := np_sort l
  let pos := p * ((l.length : ℚ) - 1) / 100
  let i := (⌊pos⌋).toNat
  let lower := s.getD i 0
  lower + (pos - (i : ℚ)) * (s.getD (i + 1) lower - lower)

/-- Model of `np.min` on a (nonempty) list. -/
def np_min : List ℚ → ℚ
  | [] => 0
  | x :: xs => xs.foldl min x

/-- Model of `np.max` on a (nonempty) list. -/
def np_max : List ℚ → ℚ
  | [] => 0
  | x :: xs => xs.foldl max x

/-- Model of the squared `np.std` (population variance).  The source
reports the square root of this quantity; no verified statement refers to
it. -/
def np_variance (l : List ℚ) : ℚ := ((l.map (fun x => (x - np_mean l) ^ 2)).sum) / l.length

/-- Aggregate statistics dictionary returned by
`RiskAnalyzer.monte_carlo_simulation` (src/models/risk_analysis.py lines
73-90).  `std_dev_sq` carries the variance whose square root the source
reports; the `current_price` echo and the take-1000 `detailed_results`
sample (whose entries also record the sampled parameters) are not
modelled, as no verified statement refers to them. -/
structure MCStats where
  simulation_count : ℕ
  mean_value : ℚ
  median_value : ℚ
  std_dev_sq : ℚ
  min_value : ℚ
  max_value : ℚ
  p5 : ℚ
  p25 : ℚ
  p75 : ℚ
  p95 : ℚ
  var_95 : ℚ
  probability_positive : ℚ
deriving DecidableEq

/-- Embedding of `RiskAnalyzer.monte_carlo_simulation`
(src/models/risk_analysis.py lines 22-94).  The randomness is made
explicit: `zs` is the stream of standard-normal draws, one triple per
trial, and `np.random.normal(mean, std)` is `mean + std * z`.  Each trial
clamps/repairs its sampled parameters and runs the DCF pipeline; a failing
trial is skipped (`filterMap`).  Zero surviving trials yield the
`'No valid simulation results'` dictionary, modelled as `none`. -/
def monte_carlo_simulation (shares base_fcf gmean gstd wmean wstd tmean tstd : ℚ)
    (zs : List (ℚ × ℚ × ℚ)) : Option MCStats :=
  let values := zs.filterMap (fun z =>
    (dcf_trial base_fcf shares (gmean + gstd * z.1) (wmean + wstd * z.2.1)
      (tmean + tstd * z.2.2)).toOption)
  if values.isEmpty then none
  else some
    { simulation_count := values.length
      mean_value := np_mean values
      median_value := np_median values
      std_dev_sq := np_variance values
      min_value := np_min values
      max_value := np_max values
      p5 := np_percentile values 5
      p25 := np_percentile values 25
      p75 := np_percentile values 75
      p95 := np_percentile values 95
      var_95 := np_percentile values 5
      probability_positive := (values.countP (fun v => decide (0 < v)) : ℚ) / values.length }

/-- Validation succeeds exactly when all six documented conditions hold. -/
lemma validate_inputs_ok_iff (b g w t s : ℚ) :
    validate_inputs b g w t s = Except.ok () ↔
      0 < b ∧ (-(1/2) ≤ g ∧ g ≤ 1) ∧ (1/100 ≤ w ∧ w ≤ 1/2) ∧
        (-(1/10) ≤ t ∧ t ≤ 15/100) ∧ t < w ∧ 0 < s := by
  constructor
  · intro hok
    unfold validate_inputs at hok
    split_ifs at hok with h1 h2 h3 h4 h5 h6
    push_neg at h1 h6
    exact ⟨h1, h2, h3, h4, lt_of_not_le h5, h6⟩
  · rintro ⟨hb, hg, hw, ht, htw, hs⟩
    unfold validate_inputs
    rw [if_neg (not_le.mpr hb), if_neg (not_not_intro hg), if_neg (not_not_intro hw),
      if_neg (not_not_intro ht), if_neg (not_le.mpr htw), if_neg (not_le.mpr hs)]

/-- Validation only ever fails with a `ValueError`. -/
lemma validate_inputs_error_is_valueError (b g w t s : ℚ) (e : PyError)
    (h : validate_inputs b g w t s = Except.error e) : ∃ v, e = PyError.valueError v := by
  unfold validate_inputs at h
  split_ifs at h <;> exact ⟨_, (Except.error.injEq _ _).mp h |>.symm⟩

/-- C5: `validate_inputs` succeeds exactly when baseFCF > 0,
growth ∈ [-0.5, 1.0], wacc ∈ [0.01, 0.50], terminalGrowth ∈ [-0.10, 0.15],
wacc > terminalGrowth and sharesOutstanding > 0; otherwise it raises
`ValueError` at the first violated rule in that order (the check is pure,
so there are no side effects to state). -/
theorem validate_inputs_spec (b g w t s : ℚ) :
    (validate_inputs b g w t s = Except.ok () ↔
      0 < b ∧ (-(1/2) ≤ g ∧ g ≤ 1) ∧ (1/100 ≤ w ∧ w ≤ 1/2) ∧
        (-(1/10) ≤ t ∧ t ≤ 15/100) ∧ t < w ∧ 0 < s) ∧
    (b ≤ 0 →
      validate_inputs b g w t s = Except.error (.valueError .baseFCFNotPositive)) ∧
    (0 < b → ¬(-(1/2) ≤ g ∧ g ≤ 1) →
      validate_inputs b g w t s = Except.error (.valueError .growthOutOfRange)) ∧
    (0 < b → (-(1/2) ≤ g ∧ g ≤ 1) → ¬(1/100 ≤ w ∧ w ≤ 1/2) →
      validate_inputs b g w t s = Except.error (.valueError .waccOutOfRange)) ∧
    (0 < b → (-(1/2) ≤ g ∧ g ≤ 1) → (1/100 ≤ w ∧ w ≤ 1/2) →
      ¬(-(1/10) ≤ t ∧ t ≤ 15/100) →
      validate_inputs b g w t s = Except.error (.valueError .terminalGrowthOutOfRange)) ∧
    (0 < b → (-(1/2) ≤ g ∧ g ≤ 1) → (1/100 ≤ w ∧ w ≤ 1/2) →
      (-(1/10) ≤ t ∧ t ≤ 15/100) → w ≤ t →
      validate_inputs b g w t s = Except.error (.valueError .waccNotAboveTerminalGrowth)) ∧
    (0 < b → (-(1/2) ≤ g ∧ g ≤ 1) → (1/100 ≤ w ∧ w ≤ 1/2) →
      (-(1/10) ≤ t ∧ t ≤ 15/100) → t < w → s ≤ 0 →
      validate_inputs b g w t s = Except.error (.valueError .sharesNotPositive)) := by
  refine ⟨validate_inputs_ok_iff b g w t s, ?_, ?_, ?_, ?_, ?_, ?_⟩
  · intro h1
    unfold validate_inputs
    rw [if_pos h1]
  · intro h1 h2
    unfold validate_inputs
    rw [if_neg (not_le.mpr h1), if_pos h2]
  · intro h1 h2 h3
    unfold validate_inputs
    rw [if_neg (not_le.mpr h1), if_neg (not_not_intro h2), if_pos h3]
  · intro h1 h2 h3 h4
    unfold validate_inputs
    rw [if_neg (not_le.mpr h1), if_neg (not_not_intro h2), if_neg (not_not_intro h3),
      if_pos h4]
  · intro h1 h2 h3 h4 h5
    unfold validate_inputs
    rw [if_neg (not_le.mpr h1), if_neg (not_not_intro h2), if_neg (not_not_intro h3),
      if_neg (not_not_intro h4), if_pos h5]
  · intro h1 h2 h3 h4 h5 h6
    unfold validate_inputs
    rw [if_neg (not_le.mpr h1), if_neg (not_not_intro h2), if_neg (not_not_intro h3),
      if_neg (not_not_intro h4), if_neg (not_le.mpr h5), if_pos h6]

/-- Witness for `validate_inputs_spec`: the documented valid example input
passes validation. -/
theorem validate_inputs_spec_witness :
    validate_inputs 100000 (1/10) (12/100) (3/100) 1000000 = Except.ok () :=
  (validate_inputs_spec 100000 (1/10) (12/100) (3/100) 1000000).1.mpr
    (by norm_num)

/-- C2: for baseFCF > 0, growth ∈ [-0.5, 1.0] and years ≥ 1, `project_fcf`
returns a list of exactly `years` values with
`output[i] = baseFCF * (1+growth)^(i+1)`. -/
theorem project_fcf_spec (b g : ℚ) (years : ℕ) (hb : 0 < b)
    (hg1 : -(1/2) ≤ g) (hg2 : g ≤ 1) (hy : 1 ≤ years) :
    ∃ l, project_fcf b g years = Except.ok l ∧ l.length = years ∧
      ∀ i < years, l[i]? = some (b * (1 + g) ^ (i + 1)) := by
  refine ⟨(List.range years).map (fun i => b * (1 + g) ^ (i + 1)), ?_, by simp, ?_⟩
  · unfold project_fcf
    rw [(validate_inputs_ok_iff b g (1/10) (3/100) 1).mpr
      ⟨hb, ⟨hg1, hg2⟩, by norm_num, by norm_num, by norm_num, by norm_num⟩]
  · intro i hi
    rw [List.getElem?_map, List.getElem?_eq_getElem (by simpa using hi)]
    simp

/-- Witness for `project_fcf_spec` at the documented example input. -/
theorem project_fcf_spec_witness :
    ∃ l, project_fcf 100000 (1/10) 5 = Except.ok l ∧ l.length = 5 ∧
      ∀ i < 5, l[i]? = some (100000 * (1 + 1/10) ^ (i + 1)) :=
  project_fcf_spec 100000 (1/10) 5 (by norm_num) (by norm_num) (by norm_num)
    (by norm_num)

/-- C8: whenever required return ≤ dividend growth, the dividend discount
model fails with the `ValueError` raised before any valuation is computed
(the method's exception handler surfaces it to the caller as an error
entry instead of a numeric valuation); `shares ≠ 0` reflects the
snapshot invariant that shares outstanding is coerced to at least 1
upstream. -/
theorem dividend_discount_model_spec (revenue shares dg rr : ℚ)
    (hs : shares ≠ 0) (h : rr ≤ dg) :
    dividend_discount_model revenue shares dg rr
      = Except.error (PyError.valueError .requiredReturnNotAboveDividendGrowth) := by
  unfold dividend_discount_model
  rw [if_neg hs, if_pos h]

/-- Witness for `dividend_discount_model_spec`. -/
theorem dividend_discount_model_spec_witness :
    dividend_discount_model 500000 1000000 (3/100) (2/100)
      = Except.error (PyError.valueError .requiredReturnNotAboveDividendGrowth) :=
  dividend_discount_model_spec 500000 1000000 (3/100) (2/100) (by norm_num)
    (by norm_num)

/-- C3 (failing input): on a WACC range containing 0.03 and a
terminal-growth range containing 0.03, the matrix builder does not record
the degenerate cell as `None` — `calculate_dcf` raises `ValueError` (not
the `ZeroDivisionError` the builder catches), so the whole call raises and
no other cell is produced. -/
theorem generate_sensitivity_matrix_degenerate_raises :
    generate_sensitivity_matrix 100000 1000000 (1/10) [3/100, 12/100] [3/100]
      = Except.error (PyError.valueError .waccNotAboveTerminalGrowth) := by
  norm_num [generate_sensitivity_matrix, project_fcf, validate_inputs, calculate_dcf,
    List.range_succ, List.mapM, List.mapM.loop, Except.instMonad, Except.bind, Except.map,
    Except.pure, Bind.bind, Pure.pure]

/-- Explicit success form of `calculate_dcf` under the validated
preconditions. -/
lemma calculate_dcf_eq_ok (l : List ℚ) (w t s : ℚ) (hne : l ≠ [])
    (hhead : 0 < l.headD 0) (hw : 1/100 ≤ w ∧ w ≤ 1/2)
    (ht : -(1/10) ≤ t ∧ t ≤ 15/100) (htw : t < w) (hs : 0 < s) :
    calculate_dcf l w t s = Except.ok
      { enterprise_value := (l.enum.map (fun p => p.2 / (1 + w) ^ (p.1 + 1))).sum
          + (l.getLast?.getD 0) * (1 + t) / (w - t) / (1 + w) ^ l.length
        intrinsic_value := ((l.enum.map (fun p => p.2 / (1 + w) ^ (p.1 + 1))).sum
          + (l.getLast?.getD 0) * (1 + t) / (w - t) / (1 + w) ^ l.length) / s
        discounted_fcf := l.enum.map (fun p => p.2 / (1 + w) ^ (p.1 + 1))
        discounted_terminal := (l.getLast?.getD 0) * (1 + t) / (w - t) / (1 + w) ^ l.length
        terminal_value := (l.getLast?.getD 0) * (1 + t) / (w - t)
        pv_explicit_fcf := (l.enum.map (fun p => p.2 / (1 + w) ^ (p.1 + 1))).sum
        terminal_fcf := (l.getLast?.getD 0) * (1 + t) } := by
  have hval : validate_inputs (l.headD 0) (1/10) w t s = Except.ok () :=
    (validate_inputs_ok_iff _ _ _ _ _).mpr ⟨hhead, by norm_num, hw, ht, htw, hs⟩
  have hwt : w - t ≠ 0 := sub_ne_zero.mpr (ne_of_gt htw)
  simp only [calculate_dcf, List.isEmpty_eq_false.mpr hne, Bool.false_eq_true, if_false,
    hval, if_neg hwt]

/-- Index lemma for the discounted-cash-flow list built with `enumerate`. -/
lemma enum_map_getD (l : List ℚ) (f : ℕ → ℚ → ℚ) (i : ℕ) (h : i < l.length) :
    (l.enum.map (fun p => f p.1 p.2)).getD i 0 = f i (l.getD i 0) := by
  rw [List.getD_eq_getElem?_getD, List.getElem?_map, List.getElem?_enum,
    List.getElem?_eq_getElem h, List.getD_eq_getElem?_getD, List.getElem?_eq_getElem h]
  rfl

/-- C1 (amended): for every non-empty FCF sequence whose first element is
strictly positive (the validator uses `fcf_list[0]` as base-FCF proxy),
wacc ∈ [0.01, 0.50], terminalGrowth ∈ [-0.10, 0.15] with
wacc > terminalGrowth and sharesOutstanding > 0, `calculate_dcf` returns a
result with `discounted_fcf[i] = fcf[i]/(1+wacc)^(i+1)`,
`terminal_value = lastFCF*(1+terminalGrowth)/(wacc-terminalGrowth)`,
`discounted_terminal = terminal_value/(1+wacc)^n`,
`enterprise_value = sum(discounted_fcf) + discounted_terminal` and
`intrinsic_value = enterprise_value / sharesOutstanding`. -/
theorem calculate_dcf_formulas (l : List ℚ) (w t s : ℚ) (hne : l ≠ [])
    (hhead : 0 < l.headD 0) (hw1 : 1/100 ≤ w) (hw2 : w ≤ 1/2)
    (ht1 : -(1/10) ≤ t) (ht2 : t ≤ 15/100) (htw : t < w) (hs : 0 < s) :
    ∃ r, calculate_dcf l w t s = Except.ok r ∧
      r.discounted_fcf.length = l.length ∧
      (∀ i < l.length, r.discounted_fcf.getD i 0 = l.getD i 0 / (1 + w) ^ (i + 1)) ∧
      r.terminal_value = (l.getLast?.getD 0) * (1 + t) / (w - t) ∧
      r.discounted_terminal = r.terminal_value / (1 + w) ^ l.length ∧
      r.enterprise_value = r.discounted_fcf.sum + r.discounted_terminal ∧
      r.intrinsic_value = r.enterprise_value / s := by
  refine ⟨_, calculate_dcf_eq_ok l w t s hne hhead ⟨hw1, hw2⟩ ⟨ht1, ht2⟩ htw hs,
    by simp [List.enum_length], ?_, rfl, rfl, rfl, rfl⟩
  intro i hi
  exact enum_map_getD l (fun n x => x / (1 + w) ^ (n + 1)) i hi

/-- Witness for `calculate_dcf_formulas` at the documented example
projection. -/
theorem calculate_dcf_formulas_witness :
    ∃ r, calculate_dcf [110000, 121000, 133100, 146410, 161051] (12/100) (3/100) 1000000
        = Except.ok r ∧
      r.discounted_fcf.length = ([110000, 121000, 133100, 146410, 161051] : List ℚ).length ∧
      (∀ i < ([110000, 121000, 133100, 146410, 161051] : List ℚ).length,
        r.discounted_fcf.getD i 0
          = ([110000, 121000, 133100, 146410, 161051] : List ℚ).getD i 0
              / (1 + 12/100) ^ (i + 1)) ∧
      r.terminal_value = (([110000, 121000, 133100, 146410, 161051] : List ℚ).getLast?.getD 0)
          * (1 + 3/100) / (12/100 - 3/100) ∧
      r.discounted_terminal = r.terminal_value
          / (1 + 12/100) ^ ([110000, 121000, 133100, 146410, 161051] : List ℚ).length ∧
      r.enterprise_value = r.discounted_fcf.sum + r.discounted_terminal ∧
      r.intrinsic_value = r.enterprise_value / 1000000 :=
  calculate_dcf_formulas [110000, 121000, 133100, 146410, 161051] (12/100) (3/100) 1000000
    (by simp) (by norm_num) (by norm_num) (by norm_num) (by norm_num) (by norm_num)
    (by norm_num) (by norm_num)

/-- C1 (counterexample to the claim as stated): with a non-empty FCF
sequence whose first element is not positive, `calculate_dcf` raises
instead of returning a result, so the unamended universal claim fails. -/
theorem calculate_dcf_nonpositive_head_no_result :
    ¬ ∃ r, calculate_dcf [(-1 : ℚ)] (12/100) (3/100) 1 = Except.ok r := by
  have h : calculate_dcf [(-1 : ℚ)] (12/100) (3/100) 1
      = Except.error (PyError.valueError .baseFCFNotPositive) := by
    norm_num [calculate_dcf, validate_inputs]
  rintro ⟨r, hr⟩
  rw [h] at hr
  exact Except.noConfusion hr

/-- C4: whenever wacc equals terminal growth, `calculate_dcf` fails with a
`ValueError` (`validate_inputs` raises before the perpetuity division is
ever reached, and the ZeroDivision double-guard would be translated into a
`ValueError` too); in particular it never returns a result, hence never an
infinite or NaN valuation. -/
theorem calculate_dcf_wacc_eq_terminal_spec (l : List ℚ) (w t s : ℚ) (hwt : w = t) :
    ∃ v, calculate_dcf l w t s = Except.error (PyError.valueError v) := by
  unfold calculate_dcf
  by_cases hemp : l.isEmpty
  · refine ⟨.emptyFCFList, ?_⟩
    simp [hemp]
  · cases hval : validate_inputs (l.headD 0) (1/10) w t s with
    | error e =>
      obtain ⟨v, rfl⟩ := validate_inputs_error_is_valueError _ _ _ _ _ _ hval
      refine ⟨v, ?_⟩
      simp [hemp, hval]
    | ok u =>
      exfalso
      cases u
      have h := (validate_inputs_ok_iff _ _ _ _ _).mp hval
      have := h.2.2.2.2.1
      rw [hwt] at this
      exact lt_irrefl t this

/-- Witness for `calculate_dcf_wacc_eq_terminal_spec` at the documented
boundary example wacc = terminalGrowth = 0.03. -/
theorem calculate_dcf_wacc_eq_terminal_spec_witness :
    ∃ v, calculate_dcf [110000, 121000, 133100, 146410, 161051] (3/100) (3/100) 1000000
      = Except.error (PyError.valueError v) :=
  calculate_dcf_wacc_eq_terminal_spec [110000, 121000, 133100, 146410, 161051]
    (3/100) (3/100) 1000000 rfl

/-- Every discounted cash flow is positive when every cash flow is. -/
lemma enum_map_discount_pos (l : List ℚ) (w : ℚ) (hw : 0 < 1 + w)
    (hl : ∀ x ∈ l, 0 < x) :
    ∀ y ∈ l.enum.map (fun p => p.2 / (1 + w) ^ (p.1 + 1)), 0 < y := by
  intro y hy
  obtain ⟨p, hp, rfl⟩ := List.mem_map.mp hy
  have hmem : p.2 ∈ l := by
    have h := List.mem_enum_iff_getElem?.mp hp
    obtain ⟨hlt, heq⟩ := List.getElem?_eq_some.mp h
    exact heq ▸ List.getElem_mem hlt
  exact div_pos (hl _ hmem) (pow_pos hw _)

/-- C9: on an FCF sequence of strictly positive entries with valid
discount parameters, `calculate_dcf` yields a strictly positive intrinsic
value, a strictly positive terminal value, and an enterprise value
strictly above the explicit-horizon present value (the discounted terminal
value always contributes positively). -/
theorem calculate_dcf_positive (l : List ℚ) (w t s : ℚ) (hne : l ≠ [])
    (hpos : ∀ x ∈ l, 0 < x) (hw1 : 1/100 ≤ w) (hw2 : w ≤ 1/2)
    (ht1 : -(1/10) ≤ t) (ht2 : t ≤ 15/100) (htw : t < w) (hs : 0 < s) :
    ∃ r, calculate_dcf l w t s = Except.ok r ∧ 0 < r.intrinsic_value ∧
      0 < r.terminal_value ∧ r.pv_explicit_fcf < r.enterprise_value := by
  have hw0 : (0:ℚ) < 1 + w := by linarith
  have ht0 : (0:ℚ) < 1 + t := by linarith
  have hwt : (0:ℚ) < w - t := by linarith
  have hhead : 0 < l.headD 0 := by
    have h1 : l.headD 0 = l.head hne := by
      rw [List.headD_eq_head?, List.head?_eq_head hne]
      rfl
    exact h1 ▸ hpos _ (List.head_mem hne)
  have hlast : 0 < l.getLast?.getD 0 := by
    have h1 : l.getLast?.getD 0 = l.getLast hne := by
      rw [List.getLast?_eq_getLast l hne]
      rfl
    exact h1 ▸ hpos _ (List.getLast_mem hne)
  have hpv : 0 < (l.enum.map (fun p => p.2 / (1 + w) ^ (p.1 + 1))).sum := by
    refine List.sum_pos _ (enum_map_discount_pos l w hw0 hpos) ?_
    simp [hne]
  have htv : 0 < l.getLast?.getD 0 * (1 + t) / (w - t) :=
    div_pos (mul_pos hlast ht0) hwt
  have hdt : 0 < l.getLast?.getD 0 * (1 + t) / (w - t) / (1 + w) ^ l.length :=
    div_pos htv (pow_pos hw0 _)
  refine ⟨_, calculate_dcf_eq_ok l w t s hne hhead ⟨hw1, hw2⟩ ⟨ht1, ht2⟩ htw hs,
    ?_, htv, ?_⟩
  · exact div_pos (add_pos hpv hdt) hs
  · exact lt_add_of_pos_right _ hdt

/-- Witness for `calculate_dcf_positive` on the documented concrete
scenario projection. -/
theorem calculate_dcf_positive_witness :
    ∃ r, calculate_dcf [110000, 121000, 133100, 146410, 161051] (12/100) (3/100) 1000000
        = Except.ok r ∧ 0 < r.intrinsic_value ∧ 0 < r.terminal_value ∧
      r.pv_explicit_fcf < r.enterprise_value :=
  calculate_dcf_positive [110000, 121000, 133100, 146410, 161051] (12/100) (3/100)
    1000000 (by simp) (by norm_num) (by norm_num) (by norm_num) (by norm_num)
    (by norm_num) (by norm_num) (by norm_num)

/-- The clamp-then-repair step always lands inside every validator bound,
with wacc strictly above terminal growth. -/
lemma clamp_params_bounds (g w t : ℚ) :
    -(1/2) ≤ (clamp_params g w t).1 ∧ (clamp_params g w t).1 ≤ 1 ∧
    1/100 ≤ (clamp_params g w t).2.1 ∧ (clamp_params g w t).2.1 ≤ 1/2 ∧
    -(1/10) ≤ (clamp_params g w t).2.2 ∧ (clamp_params g w t).2.2 ≤ 15/100 ∧
    (clamp_params g w t).2.2 < (clamp_params g w t).2.1 := by
  have hg1 : -(1/2) ≤ max (-(1/2)) (min 1 g) := le_max_left _ _
  have hg2 : max (-(1/2)) (min 1 g) ≤ 1 := max_le (by norm_num) (min_le_left _ _)
  have hw1 : 1/100 ≤ max (1/100) (min (1/2) w) := le_max_left _ _
  have hw2 : max (1/100) (min (1/2) w) ≤ 1/2 := max_le (by norm_num) (min_le_left _ _)
  have ht1 : -(1/10) ≤ max (-(1/10)) (min (15/100) t) := le_max_left _ _
  have ht2 : max (-(1/10)) (min (15/100) t) ≤ 15/100 :=
    max_le (by norm_num) (min_le_left _ _)
  unfold clamp_params
  dsimp only
  split_ifs with h
  · exact ⟨hg1, hg2, hw1, hw2, by linarith, by linarith, by linarith⟩
  · exact ⟨hg1, hg2, hw1, hw2, ht1, ht2, lt_of_not_le h⟩

/-- When the inputs already satisfy every bound with wacc above terminal
growth, the clamp-then-repair step is the identity. -/
lemma clamp_params_eq_self (g w t : ℚ) (hg1 : -(1/2) ≤ g) (hg2 : g ≤ 1)
    (hw1 : 1/100 ≤ w) (hw2 : w ≤ 1/2) (ht1 : -(1/10) ≤ t) (ht2 : t ≤ 15/100)
    (htw : t < w) : clamp_params g w t = (g, w, t) := by
  unfold clamp_params
  dsimp only
  rw [min_eq_right hg2, max_eq_right hg1, min_eq_right hw2, max_eq_right hw1,
    min_eq_right ht2, max_eq_right ht1, if_neg (not_le.mpr htw)]

/-- The projection-then-DCF body succeeds on valid parameters and computes
the closed-form `scenarioValue`. -/
lemma dcf_run_eq (b s g w t : ℚ) (hb : 0 < b) (hs : 0 < s)
    (hg1 : -(1/2) ≤ g) (hg2 : g ≤ 1) (hw1 : 1/100 ≤ w) (hw2 : w ≤ 1/2)
    (ht1 : -(1/10) ≤ t) (ht2 : t ≤ 15/100) (htw : t < w) :
    dcf_run b s g w t = Except.ok (scenarioValue b g w t s) := by
  have hg0 : (0:ℚ) < 1 + g := by linarith
  have hproj : project_fcf b g 5 = Except.ok
      [b*(1+g)^1, b*(1+g)^2, b*(1+g)^3, b*(1+g)^4, b*(1+g)^5] := by
    unfold project_fcf
    rw [(validate_inputs_ok_iff b g (1/10) (3/100) 1).mpr
      ⟨hb, ⟨hg1, hg2⟩, by norm_num, by norm_num, by norm_num, by norm_num⟩]
    norm_num [List.range_succ]
  have hhead : (0:ℚ) <
      ([b*(1+g)^1, b*(1+g)^2, b*(1+g)^3, b*(1+g)^4, b*(1+g)^5] : List ℚ).headD 0 := by
    simpa using mul_pos hb (pow_pos hg0 1)
  have hdcf := calculate_dcf_eq_ok
    [b*(1+g)^1, b*(1+g)^2, b*(1+g)^3, b*(1+g)^4, b*(1+g)^5]
    w t s (by simp) hhead ⟨hw1, hw2⟩ ⟨ht1, ht2⟩ htw hs
  have henum : ([b*(1+g)^1, b*(1+g)^2, b*(1+g)^3, b*(1+g)^4, b*(1+g)^5] : List ℚ).enum
      = [(0, b*(1+g)^1), (1, b*(1+g)^2), (2, b*(1+g)^3), (3, b*(1+g)^4),
         (4, b*(1+g)^5)] := rfl
  unfold dcf_run
  rw [hproj]
  dsimp only
  rw [hdcf]
  dsimp only
  rw [Except.ok.injEq]
  unfold scenarioValue
  rw [henum]
  simp only [List.map_cons, List.map_nil, List.sum_cons, List.sum_nil, List.getLast?,
    List.length_cons, List.length_nil]
  norm_num
  ring

/-- Every risk-analysis trial with positive base FCF and positive shares
succeeds, returning the closed-form `scenarioValue` of the
clamped-and-repaired parameters. -/
lemma dcf_trial_eq (b s g w t : ℚ) (hb : 0 < b) (hs : 0 < s) :
    dcf_trial b s g w t = Except.ok
      (scenarioValue b (clamp_params g w t).1 (clamp_params g w t).2.1
        (clamp_params g w t).2.2 s) := by
  obtain ⟨hg1, hg2, hw1, hw2, ht1, ht2, htw⟩ := clamp_params_bounds g w t
  unfold dcf_trial
  exact dcf_run_eq b s _ _ _ hb hs hg1 hg2 hw1 hw2 ht1 ht2 htw

/-- C10: the clamp-then-repair step always yields parameters satisfying
every validator bound with wacc strictly greater than terminal growth (in
particular the repaired terminal never falls below -0.10), so a
risk-analysis trial with positive base FCF and positive shares never fails
validation; `dcf_trial` is the shared per-trial body of the Monte Carlo,
scenario and stress paths. -/
theorem clamp_params_always_valid (g w t b s : ℚ) (hb : 0 < b) (hs : 0 < s) :
    (-(1/2) ≤ (clamp_params g w t).1 ∧ (clamp_params g w t).1 ≤ 1 ∧
     1/100 ≤ (clamp_params g w t).2.1 ∧ (clamp_params g w t).2.1 ≤ 1/2 ∧
     -(1/10) ≤ (clamp_params g w t).2.2 ∧ (clamp_params g w t).2.2 ≤ 15/100 ∧
     (clamp_params g w t).2.2 < (clamp_params g w t).2.1) ∧
    ∃ v, dcf_trial b s g w t = Except.ok v :=
  ⟨clamp_params_bounds g w t, _, dcf_trial_eq b s g w t hb hs⟩

/-- Witness for `clamp_params_always_valid` on an out-of-range sample that
exercises both the clamps and the repair branch. -/
theorem clamp_params_always_valid_witness :
    (-(1/2) ≤ (clamp_params 2 (3/4) (9/10)).1 ∧ (clamp_params 2 (3/4) (9/10)).1 ≤ 1 ∧
     1/100 ≤ (clamp_params 2 (3/4) (9/10)).2.1 ∧
     (clamp_params 2 (3/4) (9/10)).2.1 ≤ 1/2 ∧
     -(1/10) ≤ (clamp_params 2 (3/4) (9/10)).2.2 ∧
     (clamp_params 2 (3/4) (9/10)).2.2 ≤ 15/100 ∧
     (clamp_params 2 (3/4) (9/10)).2.2 < (clamp_params 2 (3/4) (9/10)).2.1) ∧
    ∃ v, dcf_trial 1 1 2 (3/4) (9/10) = Except.ok v :=
  clamp_params_always_valid 2 (3/4) (9/10) 1 1 (by norm_num) (by norm_num)

/-- Intrinsic value is monotone: raising growth or terminal growth and
lowering wacc never lowers the trial's value. -/
lemma scenarioValue_mono (b s g₁ w₁ t₁ g₂ w₂ t₂ : ℚ) (hb : 0 < b) (hs : 0 < s)
    (hg0 : 0 ≤ 1 + g₁) (hg : g₁ ≤ g₂) (hw0 : 0 < 1 + w₂) (hw : w₂ ≤ w₁)
    (ht0 : 0 ≤ 1 + t₁) (ht : t₁ ≤ t₂) (hd0 : 0 < w₂ - t₂) :
    scenarioValue b g₁ w₁ t₁ s ≤ scenarioValue b g₂ w₂ t₂ s := by
  have hd : w₂ - t₂ ≤ w₁ - t₁ := by linarith
  have hg0' : 0 ≤ 1 + g₂ := by linarith
  have hw0' : (0:ℚ) < 1 + w₁ := by linarith
  have ht0' : 0 ≤ 1 + t₂ := by linarith
  have hd0' : 0 < w₁ - t₁ := lt_of_lt_of_le hd0 hd
  have hb' : 0 ≤ b := le_of_lt hb
  unfold scenarioValue
  gcongr

/-- C6: with base parameters strictly inside the legal bounds with margin
for the scenario deltas (so no clamp or repair fires), `scenario_analysis`
produces bear/base/bull intrinsic values ordered
bear ≤ base ≤ bull. -/
theorem scenario_analysis_ordered (fcf shares g w t : ℚ)
    (hf : 0 < fcf) (hs : 0 < shares)
    (hg1 : -(1/2) ≤ g - 5/100) (hg2 : g + 5/100 ≤ 1)
    (hw1 : 1/100 ≤ w - 1/100) (hw2 : w + 2/100 ≤ 1/2)
    (ht1 : -(1/10) ≤ t - 1/100) (ht2 : t + 1/100 ≤ 15/100)
    (htw : t + 1/100 < w - 1/100) :
    ∃ vbear vbase vbull,
      (scenario_analysis fcf shares g w t).1 = Except.ok vbear ∧
      (scenario_analysis fcf shares g w t).2.1 = Except.ok vbase ∧
      (scenario_analysis fcf shares g w t).2.2 = Except.ok vbull ∧
      vbear ≤ vbase ∧ vbase ≤ vbull := by
  have hbear : dcf_trial fcf shares (g - 5/100) (w + 2/100) (t - 1/100)
      = Except.ok (scenarioValue fcf (g - 5/100) (w + 2/100) (t - 1/100) shares) := by
    rw [dcf_trial_eq fcf shares _ _ _ hf hs,
      clamp_params_eq_self _ _ _ hg1 (by linarith) (by linarith) hw2 ht1 (by linarith)
        (by linarith)]
  have hbase : dcf_trial fcf shares g w t
      = Except.ok (scenarioValue fcf g w t shares) := by
    rw [dcf_trial_eq fcf shares _ _ _ hf hs,
      clamp_params_eq_self _ _ _ (by linarith) (by linarith) (by linarith) (by linarith)
        (by linarith) (by linarith) (by linarith)]
  have hbull : dcf_trial fcf shares (g + 5/100) (w - 1/100) (t + 1/100)
      = Except.ok (scenarioValue fcf (g + 5/100) (w - 1/100) (t + 1/100) shares) := by
    rw [dcf_trial_eq fcf shares _ _ _ hf hs,
      clamp_params_eq_self _ _ _ (by linarith) hg2 hw1 (by linarith) (by linarith) ht2
        (by linarith)]
  refine ⟨_, _, _, hbear, hbase, hbull, ?_, ?_⟩
  · exact scenarioValue_mono fcf shares (g - 5/100) (w + 2/100) (t - 1/100) g w t hf hs
      (by linarith) (by linarith) (by linarith) (by linarith) (by linarith) (by linarith)
      (by linarith)
  · exact scenarioValue_mono fcf shares g w t (g + 5/100) (w - 1/100) (t + 1/100) hf hs
      (by linarith) (by linarith) (by linarith) (by linarith) (by linarith) (by linarith)
      (by linarith)

/-- Witness for `scenario_analysis_ordered` at the documented base
parameters. -/
theorem scenario_analysis_ordered_witness :
    ∃ vbear vbase vbull,
      (scenario_analysis 100000 1000000 (1/10) (12/100) (3/100)).1 = Except.ok vbear ∧
      (scenario_analysis 100000 1000000 (1/10) (12/100) (3/100)).2.1 = Except.ok vbase ∧
      (scenario_analysis 100000 1000000 (1/10) (12/100) (3/100)).2.2 = Except.ok vbull ∧
      vbear ≤ vbase ∧ vbase ≤ vbull :=
  scenario_analysis_ordered 100000 1000000 (1/10) (12/100) (3/100) (by norm_num)
    (by norm_num) (by norm_num) (by norm_num) (by norm_num) (by norm_num) (by norm_num)
    (by norm_num) (by norm_num)

/-- A constant-`some` filterMap keeps every element. -/
lemma filterMap_const_some {α : Type} (zs : List α) (v : ℚ) :
    zs.filterMap (fun _ => some v) = List.replicate zs.length v := by
  induction zs with
  | nil => rfl
  | cons z zs ih => simp [List.filterMap_cons, ih, List.replicate_succ]

/-- Sorting a constant list is the identity. -/
lemma np_sort_replicate (n : ℕ) (v : ℚ) :
    np_sort (List.replicate n v) = List.replicate n v := by
  unfold np_sort
  have hperm := List.perm_insertionSort (fun a b : ℚ => a ≤ b) (List.replicate n v)
  refine List.eq_replicate_iff.mpr ⟨?_, ?_⟩
  · rw [hperm.length_eq, List.length_replicate]
  · intro b hb
    exact List.eq_of_mem_replicate (hperm.mem_iff.mp hb)

/-- Indexing a constant list inside its range. -/
lemma getD_replicate (n i : ℕ) (v d : ℚ) (h : i < n) :
    (List.replicate n v).getD i d = v := by
  rw [List.getD_eq_getElem?_getD, List.getElem?_replicate, if_pos h]
  rfl

/-- Mean of a constant list. -/
lemma np_mean_replicate (n : ℕ) (v : ℚ) (hn : n ≠ 0) :
    np_mean (List.replicate n v) = v := by
  unfold np_mean
  rw [List.sum_replicate, List.length_replicate, nsmul_eq_mul]
  exact mul_div_cancel_left₀ v (Nat.cast_ne_zero.mpr hn)

/-- Median of a constant list. -/
lemma np_median_replicate (n : ℕ) (v : ℚ) (hn : n ≠ 0) :
    np_median (List.replicate n v) = v := by
  unfold np_median
  dsimp only
  rw [np_sort_replicate, List.length_replicate]
  split_ifs with h
  · exact getD_replicate n (n / 2) v 0 (Nat.div_lt_self (Nat.pos_of_ne_zero hn)
      (by norm_num))
  · rw [getD_replicate n (n / 2 - 1) v 0 (by omega),
      getD_replicate n (n / 2) v 0 (Nat.div_lt_self (Nat.pos_of_ne_zero hn) (by norm_num))]
    ring

/-- Minimum of a constant list. -/
lemma np_min_replicate (n : ℕ) (v : ℚ) (hn : n ≠ 0) :
    np_min (List.replicate n v) = v := by
  obtain ⟨m, rfl⟩ := Nat.exists_eq_succ_of_ne_zero hn
  rw [List.replicate_succ]
  show (List.replicate m v).foldl min v = v
  induction m with
  | zero => rfl
  | succ k ih => rw [List.replicate_succ]; simpa using ih

/-- Maximum of a constant list. -/
lemma np_max_replicate (n : ℕ) (v : ℚ) (hn : n ≠ 0) :
    np_max (List.replicate n v) = v := by
  obtain ⟨m, rfl⟩ := Nat.exists_eq_succ_of_ne_zero hn
  rw [List.replicate_succ]
  show (List.replicate m v).foldl max v = v
  induction m with
  | zero => rfl
  | succ k ih => rw [List.replicate_succ]; simpa using ih

/-- Any percentile of a constant list, for 0 ≤ p ≤ 100. -/
lemma np_percentile_replicate (n : ℕ) (v p : ℚ) (hn : n ≠ 0)
    (hp0 : 0 ≤ p) (hp1 : p ≤ 100) :
    np_percentile (List.replicate n v) p = v := by
  unfold np_percentile
  dsimp only
  rw [np_sort_replicate, List.length_replicate]
  have hn1 : (1:ℚ) ≤ n := by exact_mod_cast Nat.one_le_iff_ne_zero.mpr hn
  have h0 : (0:ℚ) ≤ (n:ℚ) - 1 := by linarith
  have hle : p * ((n:ℚ) - 1) / 100 ≤ (n:ℚ) - 1 := by
    rw [div_le_iff₀ (by norm_num : (0:ℚ) < 100)]
    nlinarith
  have hfloor : ⌊p * ((n:ℚ) - 1) / 100⌋ ≤ (n:ℤ) - 1 := by
    have : ((n:ℤ) - 1 : ℤ) = ⌊((n:ℚ) - 1)⌋ := by
      rw [show ((n:ℚ) - 1) = (((n:ℤ) - 1 : ℤ) : ℚ) by push_cast; ring, Int.floor_intCast]
    rw [this]
    exact Int.floor_le_floor hle
  have hi : (⌊p * ((n:ℚ) - 1) / 100⌋).toNat < n := by
    have h1 := Int.toNat_le_toNat hfloor
    have h2 : ((n:ℤ) - 1).toNat = n - 1 := by omega
    omega
  rw [getD_replicate n _ v 0 hi]
  by_cases hsucc : (⌊p * ((n:ℚ) - 1) / 100⌋).toNat + 1 < n
  · rw [getD_replicate n _ v v hsucc]
    ring
  · rw [List.getD_eq_getElem?_getD, List.getElem?_replicate, if_neg hsucc]
    show v + _ * (v - v) = v
    ring

/-- C7: with all three standard deviations zero and means that yield a
valid deterministic trial, every surviving Monte Carlo trial equals the
single deterministic DCF value `v`, and the reported mean, median, min,
max and every percentile collapse to that same `v`. -/
theorem monte_carlo_zero_std_collapses (shares b gm wm tm v : ℚ)
    (zs : List (ℚ × ℚ × ℚ)) (hzs : zs ≠ [])
    (hdet : dcf_trial b shares gm wm tm = Except.ok v) :
    ∃ st, monte_carlo_simulation shares b gm 0 wm 0 tm 0 zs = some st ∧
      st.simulation_count = zs.length ∧ st.mean_value = v ∧ st.median_value = v ∧
      st.min_value = v ∧ st.max_value = v ∧
      st.p5 = v ∧ st.p25 = v ∧ st.p75 = v ∧ st.p95 = v := by
  have hn : zs.length ≠ 0 := fun h => hzs (List.length_eq_zero.mp h)
  have hvals : zs.filterMap (fun z =>
        (dcf_trial b shares (gm + 0 * z.1) (wm + 0 * z.2.1) (tm + 0 * z.2.2)).toOption)
      = List.replicate zs.length v := by
    simp only [zero_mul, add_zero, hdet, Except.toOption]
    exact filterMap_const_some zs v
  have hne : (List.replicate zs.length v).isEmpty = false :=
    List.isEmpty_eq_false.mpr (by simp [hn])
  unfold monte_carlo_simulation
  dsimp only
  rw [hvals, hne]
  simp only [Bool.false_eq_true, if_false]
  exact ⟨_, rfl, List.length_replicate _ _, np_mean_replicate _ _ hn,
    np_median_replicate _ _ hn, np_min_replicate _ _ hn, np_max_replicate _ _ hn,
    np_percentile_replicate _ _ _ hn (by norm_num) (by norm_num),
    np_percentile_replicate _ _ _ hn (by norm_num) (by norm_num),
    np_percentile_replicate _ _ _ hn (by norm_num) (by norm_num),
    np_percentile_replicate _ _ _ hn (by norm_num) (by norm_num)⟩

/-- Witness for `monte_carlo_zero_std_collapses`: one trial at means
growth 0, wacc 0.5, terminal 0, whose deterministic value is 2. -/
theorem monte_carlo_zero_std_collapses_witness :
    ∃ st, monte_carlo_simulation 1 1 0 0 (1/2) 0 0 0 [(0, 0, 0)] = some st ∧
      st.simulation_count = [((0:ℚ), (0:ℚ), (0:ℚ))].length ∧ st.mean_value = 2 ∧
      st.median_value = 2 ∧ st.min_value = 2 ∧ st.max_value = 2 ∧
      st.p5 = 2 ∧ st.p25 = 2 ∧ st.p75 = 2 ∧ st.p95 = 2 :=
  monte_carlo_zero_std_collapses 1 1 0 (1/2) 0 2 [(0, 0, 0)] (by simp)
    (by rw [dcf_trial_eq 1 1 0 (1/2) 0 (by norm_num) (by norm_num),
          clamp_params_eq_self 0 (1/2) 0 (by norm_num) (by norm_num) (by norm_num)
            (by norm_num) (by norm_num) (by norm_num) (by norm_num)]
        norm_num [scenarioValue])
